import Mathlib

/-!
A shallow embedding of the core of `cronjob-runner` (a CLI that runs a
Kubernetes Job from a CronJob template, watches it to completion and tails
the container logs), together with theorems settling the specification
claims about it.

Go strings are modelled as `List Char` (named `Str`); Go slices as `List`;
Go maps as association-style lookups with last-insertion-wins semantics;
nil pointers as `Option`.  Each definition mirrors one function of the
source tree and keeps its name.
-/

/-- Go string model: a list of characters. -/
abbrev Str := List Char

/-- Coerce a Lean string literal to the Go string model. -/
def str (s : String) : Str := s.data

/-! ## unicode.IsSpace (Go standard library)

The set of Unicode code points with the White_Space property, as tested by
`unicode.IsSpace`, used by `strings.TrimRightFunc` in `parseLine`
(internal/logs/tail.go). -/

def goIsSpace (c : Char) : Bool :=
  (9 ≤ c.val && c.val ≤ 13) || c.val == 32 || c.val == 0x85 || c.val == 0xA0 ||
  c.val == 0x1680 || (0x2000 ≤ c.val && c.val ≤ 0x200A) ||
  c.val == 0x2028 || c.val == 0x2029 || c.val == 0x202F ||
  c.val == 0x205F || c.val == 0x3000

/-- strings.TrimRightFunc(s, unicode.IsSpace): drop trailing whitespace. -/
def trimRight (s : Str) : Str :=
  (s.reverse.dropWhile goIsSpace).reverse

/-- strings.SplitN(s, " ", 2): the part before the first space, and, when a
space exists, the remainder after it. -/
def splitN2 : Str → Str × Option Str
  | [] => ([], none)
  | c :: rest =>
    if c = ' ' then ([], some rest)
    else
      let p := splitN2 rest
      (c :: p.1, p.2)

/-! ## time.Parse(time.RFC3339, ...) (Go standard library)

A parsed timestamp, as produced by `time.Parse` with the RFC3339 layout
`2006-01-02T15:04:05Z07:00`.  Only the field values matter to the tailer
(they become the `SinceTime` resume cursor), so the model keeps the broken
out components. -/

structure GoTime where
  year : Nat
  month : Nat
  day : Nat
  hour : Nat
  minute : Nat
  second : Nat
  nanos : Nat
  offsetMinutes : Int
deriving DecidableEq, Repr

/-- Digit value of a character, if it is an ASCII digit. -/
def digitVal (c : Char) : Option Nat :=
  if c.isDigit then some (c.toNat - 48) else none

/-- Read exactly `n` ASCII digits from the front, returning their value. -/
def readDigits : Nat → Str → Option (Nat × Str)
  | 0, s => some (0, s)
  | Nat.succ _, [] => none
  | Nat.succ n, c :: rest =>
    match digitVal c with
    | none => none
    | some d =>
      match readDigits n rest with
      | none => none
      | some (v, s) => some (d * 10 ^ n + v, s)

/-- Read a literal character from the front. -/
def readChar (c : Char) : Str → Option Str
  | [] => none
  | c' :: rest => if c' = c then some rest else none

/-- Leap year rule of the proleptic Gregorian calendar. -/
def isLeapYear (y : Nat) : Bool :=
  (y % 4 == 0 && y % 100 != 0) || y % 400 == 0

/-- Number of days in a month. -/
def daysInMonth (y m : Nat) : Nat :=
  if m = 2 then (if isLeapYear y then 29 else 28)
  else if m = 4 ∨ m = 6 ∨ m = 9 ∨ m = 11 then 30
  else 31

/-- Fractional seconds: a dot followed by at least one digit; the first nine
digits are kept as nanoseconds. -/
def readFraction : Str → Option (Nat × Str)
  | '.' :: rest =>
    let digits := rest.takeWhile Char.isDigit
    let rest' := rest.dropWhile Char.isDigit
    if digits = [] then none
    else
      let nine := digits.take 9
      let v := nine.foldl (fun acc c => acc * 10 + (c.toNat - 48)) 0
      some (v * 10 ^ (9 - nine.length), rest')
  | _ => none

/-- Time zone suffix: `Z` or `±hh:mm`. Returns the offset in minutes. -/
def readOffset : Str → Option (Int × Str)
  | 'Z' :: rest => some (0, rest)
  | c :: rest =>
    if c = '+' ∨ c = '-' then
      match readDigits 2 rest with
      | none => none
      | some (hh, s1) =>
        match readChar ':' s1 with
        | none => none
        | some s2 =>
          match readDigits 2 s2 with
          | none => none
          | some (mm, s3) =>
            if hh ≤ 23 ∧ mm ≤ 59 then
              let total : Int := Int.ofNat (hh * 60 + mm)
              some (if c = '-' then -total else total, s3)
            else none
    else none
  | [] => none

/-- time.Parse(time.RFC3339, s): parse `yyyy-mm-ddThh:mm:ss[.frac](Z|±hh:mm)`
with range checks, or fail. -/
def rfc3339Parse (s : Str) : Option GoTime :=
  match readDigits 4 s with
  | none => none
  | some (y, s1) =>
  match readChar '-' s1 with
  | none => none
  | some s2 =>
  match readDigits 2 s2 with
  | none => none
  | some (mo, s3) =>
  match readChar '-' s3 with
  | none => none
  | some s4 =>
  match readDigits 2 s4 with
  | none => none
  | some (d, s5) =>
  match readChar 'T' s5 with
  | none => none
  | some s6 =>
  match readDigits 2 s6 with
  | none => none
  | some (h, s7) =>
  match readChar ':' s7 with
  | none => none
  | some s8 =>
  match readDigits 2 s8 with
  | none => none
  | some (mi, s9) =>
  match readChar ':' s9 with
  | none => none
  | some s10 =>
  match readDigits 2 s10 with
  | none => none
  | some (sec, s11) =>
  let (ns, s12) := match readFraction s11 with
                   | some (v, rest) => (v, rest)
                   | none => (0, s11)
  match readOffset s12 with
  | none => none
  | some (off, s13) =>
  if s13 = [] ∧ 1 ≤ mo ∧ mo ≤ 12 ∧ 1 ≤ d ∧ d ≤ daysInMonth y mo ∧
     h ≤ 23 ∧ mi ≤ 59 ∧ sec ≤ 59 then
    some ⟨y, mo, d, h, mi, sec, ns, off⟩
  else none

/-! ## internal/logs/tail.go -/

/-- parseLine (internal/logs/tail.go): trim all trailing whitespace, split
on the first space into `(rawTimestamp, message)`; if there is no space or
the prefix is not a valid RFC3339 timestamp, return the whole trimmed line
as the message with an empty timestamp and no parsed time. -/
def parseLine (line : Str) : Str × Option GoTime × Str :=
  let trimmedLine := trimRight line
  match splitN2 trimmedLine with
  | (_, none) => ([], none, trimmedLine)
  | (rawTimestamp, some message) =>
    match rfc3339Parse rawTimestamp with
    | none => ([], none, trimmedLine)
    | some t => (rawTimestamp, some t, message)

example : parseLine (str "2023-10-31T04:03:34Z hello \n") =
    (str "2023-10-31T04:03:34Z",
     some ⟨2023, 10, 31, 4, 3, 34, 0, 0⟩, str "hello") := by decide

example : parseLine (str "helloworld\n") = ([], none, str "helloworld") := by decide

example : parseLine (str "hello world\n") = ([], none, str "hello world") := by decide

/-- logs.Record (internal/logs/tail.go): one record of container logs. -/
structure Record where
  RawTimestamp : Str
  Namespace : Str
  PodName : Str
  ContainerName : Str
  Message : Str
deriving DecidableEq, Repr

/-- The tailer's resume cursor (internal/logs/tail.go `tailer`): the
`lastLogTime` passed as `SinceTime` when the stream is reopened. -/
structure Tailer where
  lastLogTime : Option GoTime
deriving DecidableEq, Repr

/-- The per-line body of `tailer.resume` (internal/logs/tail.go:88-99): for a
non-empty line, parse it, hand a `Record` to the sink and assign the parsed
time to `lastLogTime` (the assignment is unconditional in the source). -/
def resumeLineStep (t : Tailer) (namespace_ podName containerName : Str) (line : Str) :
    Tailer × Option Record :=
  if line = [] then (t, none)
  else
    let p := parseLine line
    (⟨p.2.1⟩,
     some { RawTimestamp := p.1, Namespace := namespace_, PodName := podName,
            ContainerName := containerName, Message := p.2.2 })

/-- Outcome of one `tailer.resume` call, as classified by `Tail`
(internal/logs/tail.go:47-62): `nil` (EOF), a not-found API error, a
context-cancellation error, or any other stream/read error. -/
inductive ResumeOutcome where
  | eof
  | notFound (msg : Str)
  | canceled (msg : Str)
  | otherError (msg : Str)
deriving DecidableEq, Repr

/-- Why `Tail` returned. -/
inductive StopCause where
  | reachedEOF
  | podNotFound
  | contextCanceled
deriving DecidableEq, Repr

/-- What `Tail` does with one resume outcome: stop, or sleep a fixed number
of milliseconds and retry. -/
inductive TailAction where
  | stop (cause : StopCause)
  | sleepRetry (milliseconds : Nat)
deriving DecidableEq, Repr

/-- One iteration of the `Tail` loop (internal/logs/tail.go:47-62):
`err == nil` returns; `kerrors.IsNotFound(err)` returns;
`errors.Is(err, context.Canceled)` returns; everything else sleeps
100 milliseconds and retries. -/
def tailStep : ResumeOutcome → TailAction
  | .eof => .stop .reachedEOF
  | .notFound _ => .stop .podNotFound
  | .canceled _ => .stop .contextCanceled
  | .otherError _ => .sleepRetry 100

/-- Whether `Tail` retries on this outcome. -/
def isRetryable (o : ResumeOutcome) : Bool :=
  match o with
  | .otherError _ => true
  | _ => false

/-- The stop cause of a non-retryable outcome. -/
def stopCauseOf : ResumeOutcome → Option StopCause
  | .eof => some .reachedEOF
  | .notFound _ => some .podNotFound
  | .canceled _ => some .contextCanceled
  | .otherError _ => none

/-- The `Tail` retry loop run against a finite prefix of successive resume
outcomes: returns how many sleeps happened and, if the loop exited within
the prefix, why.  `none` means the loop was still retrying after the whole
prefix (there is no retry ceiling in the source). -/
def tailLoop : List ResumeOutcome → Nat × Option StopCause
  | [] => (0, none)
  | o :: rest =>
    match tailStep o with
    | .stop cause => (0, some cause)
    | .sleepRetry _ =>
      let p := tailLoop rest
      (p.1 + 1, p.2)

/-- defaultContainerLogger.Handle (runner/types.go:30-38): the bytes written
to standard output for one record, `fmt.Printf("|%s|%s|%s|%s| %s", ...)`.
Note the format string carries no trailing newline. -/
def defaultContainerLoggerHandle (record : Record) : Str :=
  str "|" ++ record.RawTimestamp ++ str "|" ++ record.Namespace ++ str "|" ++
  record.PodName ++ str "|" ++ record.ContainerName ++ str "| " ++ record.Message

/-! ## internal/jobs/informer.go -/

/-- corev1.ConditionTrue. -/
def ConditionTrue : Str := str "True"

/-- batchv1.JobComplete. -/
def JobComplete : Str := str "Complete"

/-- batchv1.JobFailed. -/
def JobFailed : Str := str "Failed"

/-- batchv1.JobCondition: type, boolean-ish status, reason, message. -/
structure JobCondition where
  type : Str
  status : Str
  reason : Str
  message : Str
deriving DecidableEq, Repr

/-- batchv1.JobStatus, with the fields the informer could consult: the
condition list and the pod-count counters. -/
structure JobStatus where
  conditions : List JobCondition
  active : Int
  succeeded : Int
  failed : Int
deriving DecidableEq, Repr

/-- batchv1.Job: identity plus status. -/
structure Job where
  namespace_ : Str
  name : Str
  status : JobStatus
deriving DecidableEq, Repr

/-- findCondition (internal/jobs/informer.go:111-118): the first condition
whose status is `True`, if any. -/
def findCondition (job : Job) : Option JobCondition :=
  job.status.conditions.find? (fun condition => condition.status = ConditionTrue)

/-- One observable side effect of the job event handler: a structured log
line (one constructor per `slog.Info` call site of `OnUpdate`) or a send on
`finishedCh`. -/
inductive JobEmission where
  | logJobCompleted (namespace_ name : Str) (ctype reason message : Str)
  | logJobFailed (namespace_ name : Str) (reason message : Str)
  | logJobConditionChanged (namespace_ name : Str) (ctype reason message : Str)
  | sendFinished (ctype : Str)
deriving DecidableEq, Repr

/-- eventHandler.OnUpdate (internal/jobs/informer.go:65-109): look only at
the new snapshot; if no condition has status `True`, do nothing; else log
one line according to the condition type and, for `Complete` or `Failed`,
also send the condition type on `finishedCh`.  The handler holds no state
across calls. -/
def jobOnUpdate (newJob : Job) : List JobEmission :=
  match findCondition newJob with
  | none => []
  | some condition =>
    if condition.type = JobComplete then
      [.logJobCompleted newJob.namespace_ newJob.name
         condition.type condition.reason condition.message,
       .sendFinished condition.type]
    else if condition.type = JobFailed then
      [.logJobFailed newJob.namespace_ newJob.name condition.reason condition.message,
       .sendFinished condition.type]
    else
      [.logJobConditionChanged newJob.namespace_ newJob.name
         condition.type condition.reason condition.message]

/-- Emissions of the handler over a sequence of Updated snapshot deliveries
(the handler is invoked once per delivery). -/
def jobOnUpdates (updates : List Job) : List JobEmission :=
  (updates.map jobOnUpdate).flatten

/-- Whether an emission is a send on `finishedCh`. -/
def isSendFinished (e : JobEmission) : Bool :=
  match e with
  | .sendFinished _ => true
  | _ => false

/-- Whether an emission is a structured log line. -/
def isJobLog (e : JobEmission) : Bool :=
  match e with
  | .sendFinished _ => false
  | _ => true

/-- Number of outcome sends in a list of emissions. -/
def countSends (es : List JobEmission) : Nat := (es.filter isSendFinished).length

/-- Number of structured log lines in a list of emissions. -/
def countJobLogs (es : List JobEmission) : Nat := (es.filter isJobLog).length

/-! ## runner/run.go and runner/types.go -/

/-- The event that unblocks the `select` of WaitForJob
(runner/run.go:203-212): a condition type received from `jobFinishedCh`, or
context cancellation carrying `ctx.Err()`. -/
inductive WaitEvent where
  | jobFinished (conditionType : Str)
  | ctxDone (err : Str)
deriving DecidableEq, Repr

/-- The value WaitForJob returns to the caller: `nil`, a
`JobFailedError{JobNamespace, JobName}` (runner/types.go:10-17), or another
error propagated as-is. -/
inductive WaitResult where
  | ok
  | jobFailedError (JobNamespace JobName : Str)
  | otherError (err : Str)
deriving DecidableEq, Repr

/-- The `select` at the end of WaitForJob (runner/run.go:203-212): on a
received condition type, return `JobFailedError` exactly when it is
`JobFailed`, else `nil`; on cancellation, return `ctx.Err()`. -/
def waitForJobSelect (jobNamespace jobName : Str) : WaitEvent → WaitResult
  | .jobFinished conditionType =>
    if conditionType = JobFailed then .jobFailedError jobNamespace jobName
    else .ok
  | .ctxDone err => .otherError err

/-! ## internal/pods/informer.go -/

/-- corev1.ContainerStateWaiting: the fields the informer reads. -/
structure ContainerStateWaiting where
  Reason : Str
  Message : Str
deriving DecidableEq, Repr

/-- corev1.ContainerStateRunning (its `StartedAt` field is never read by the
informer, so it is left out of the model). -/
structure ContainerStateRunning where
deriving DecidableEq, Repr

/-- corev1.ContainerStateTerminated: the fields the informer reads. -/
structure ContainerStateTerminated where
  ExitCode : Int
  Reason : Str
  Message : Str
deriving DecidableEq, Repr

/-- corev1.ContainerState: at most one member is set; a nil pointer is
`none`. -/
structure ContainerState where
  Waiting : Option ContainerStateWaiting
  Running : Option ContainerStateRunning
  Terminated : Option ContainerStateTerminated
deriving DecidableEq, Repr

/-- corev1.ContainerStatus: the fields the informer reads. -/
structure ContainerStatus where
  Name : Str
  State : ContainerState
deriving DecidableEq, Repr

/-- The zero value of corev1.ContainerStatus, produced by a Go map lookup of
an absent key. -/
def zeroContainerStatus : ContainerStatus :=
  { Name := [], State := { Waiting := none, Running := none, Terminated := none } }

/-- mapContainerStatusByName (internal/pods/informer.go:141-147) followed by
a map lookup: the last status with the given name (later insertions win in a
Go map), or the zero value when the name is absent. -/
def mapContainerStatusByName (containerStatuses : List ContainerStatus) (name : Str) :
    ContainerStatus :=
  match containerStatuses.reverse.find? (fun containerStatus => containerStatus.Name = name) with
  | some containerStatus => containerStatus
  | none => zeroContainerStatus

/-- getContainerState (internal/pods/informer.go:149-162): the name of the
set member of the state struct, defaulting to `Waiting` when none is set. -/
def getContainerState (containerStatus : ContainerStatus) : Str :=
  if containerStatus.State.Waiting.isSome then str "Waiting"
  else if containerStatus.State.Running.isSome then str "Running"
  else if containerStatus.State.Terminated.isSome then str "Terminated"
  else str "Waiting"

/-- containerStateChange (internal/pods/informer.go:122-125). -/
structure containerStateChange where
  oldStatus : ContainerStatus
  newStatus : ContainerStatus
deriving DecidableEq, Repr

/-- computeContainerStateChanges (internal/pods/informer.go:127-139): for
each distinct container name of the new status list (the Go source iterates
the keys of the new map; the model fixes first-appearance order, which no
claim depends on), pair the old and new statuses when their states differ. -/
def computeContainerStateChanges (oldStatuses newStatuses : List ContainerStatus) :
    List containerStateChange :=
  ((newStatuses.map ContainerStatus.Name).dedup).filterMap (fun containerName =>
    let oldStatus := mapContainerStatusByName oldStatuses containerName
    let newStatus := mapContainerStatusByName newStatuses containerName
    if getContainerState oldStatus ≠ getContainerState newStatus then
      some { oldStatus := oldStatus, newStatus := newStatus }
    else none)

/-- pods.ContainerStartedEvent (internal/pods/informer.go:19-23). -/
structure ContainerStartedEvent where
  Namespace : Str
  PodName : Str
  ContainerName : Str
deriving DecidableEq, Repr

/-- eventHandler.notifyContainerStarted (internal/pods/informer.go:97-110):
for each changed container, send a `ContainerStartedEvent` when the old
state was `Waiting` and the new state is not, or the old state was
`Terminated` and the new state is `Running`. -/
def notifyContainerStarted (namespace_ podName : Str)
    (oldStatuses newStatuses : List ContainerStatus) : List ContainerStartedEvent :=
  (computeContainerStateChanges oldStatuses newStatuses).filterMap (fun change =>
    let oldState := getContainerState change.oldStatus
    let newState := getContainerState change.newStatus
    if (oldState = str "Waiting" ∧ newState ≠ str "Waiting") ∨
       (oldState = str "Terminated" ∧ newState = str "Running") then
      some { Namespace := namespace_, PodName := podName,
             ContainerName := change.newStatus.Name }
    else none)

/-! ## internal/jobs/create.go -/

/-- corev1.SecretKeySelector: a reference to one key of a named Secret. -/
structure SecretKeySelector where
  LocalObjectReference : Str
  Key : Str
deriving DecidableEq, Repr

/-- corev1.EnvVarSource, restricted to the member create.go constructs. -/
structure EnvVarSource where
  SecretKeyRef : Option SecretKeySelector
deriving DecidableEq, Repr

/-- corev1.EnvVar. -/
structure EnvVar where
  Name : Str
  Value : Str
  ValueFrom : Option EnvVarSource
deriving DecidableEq, Repr

/-- corev1.Container: the env list plus representative other fields, which
create.go must leave untouched. -/
structure Container where
  Name : Str
  Image : Str
  Command : List Str
  Env : List EnvVar
deriving DecidableEq, Repr

/-- corev1.PodSpec: the container list plus representative other fields. -/
structure PodSpec where
  Containers : List Container
  InitContainers : List Container
  RestartPolicy : Str
deriving DecidableEq, Repr

/-- corev1.PodTemplateSpec: template metadata labels plus the pod spec. -/
structure PodTemplateSpec where
  Labels : List (Str × Str)
  Spec : PodSpec
deriving DecidableEq, Repr

/-- batchv1.JobSpec: the pod template plus a representative scalar field. -/
structure JobSpec where
  BackoffLimit : Option Int
  Template : PodTemplateSpec
deriving DecidableEq, Repr

/-- appendEnv (internal/jobs/create.go:62-81): with an empty env map the
spec is returned unchanged; otherwise every container of the pod template
gets the injected variables appended to its env list (the Go map iteration
order is unspecified; the model injects in list order), and everything else
is deep-copied unchanged. -/
def appendEnv (jobSpec : JobSpec) (env : List (Str × Str)) : JobSpec :=
  if env.length = 0 then jobSpec
  else
    let newContainers := jobSpec.Template.Spec.Containers.map (fun container =>
      { container with
        Env := container.Env ++ env.map (fun nv =>
          { Name := nv.1, Value := nv.2, ValueFrom := none }) })
    { jobSpec with
      Template := { jobSpec.Template with
        Spec := { jobSpec.Template.Spec with Containers := newContainers } } }

/-- appendSecretEnv (internal/jobs/create.go:83-107): with an empty
secretEnv list the spec is returned unchanged; otherwise every container of
the pod template gets one `SecretKeyRef` variable per listed name appended
to its env list, and everything else is deep-copied unchanged. -/
def appendSecretEnv (jobSpec : JobSpec) (secret : Str) (secretEnv : List Str) : JobSpec :=
  if secretEnv.length = 0 then jobSpec
  else
    let newContainers := jobSpec.Template.Spec.Containers.map (fun container =>
      { container with
        Env := container.Env ++ secretEnv.map (fun name =>
          let selector : SecretKeySelector := { LocalObjectReference := secret, Key := name }
          { Name := name, Value := [],
            ValueFrom := some ({ SecretKeyRef := some selector }) }) })
    { jobSpec with
      Template := { jobSpec.Template with
        Spec := { jobSpec.Template.Spec with Containers := newContainers } } }




/-! ## Concrete inputs used by counterexamples and witnesses -/

/-- A parsed timestamp used as a pre-existing tail cursor. -/
def c3Time : GoTime := ⟨2023, 10, 31, 4, 3, 34, 0, 0⟩

/-- A job snapshot carrying a true `Complete` condition. -/
def terminalJob : Job :=
  { namespace_ := str "default", name := str "job-1",
    status := { conditions := [{ type := JobComplete, status := ConditionTrue,
                                 reason := str "", message := str "" }],
                active := 0, succeeded := 1, failed := 0 } }

/-- A job snapshot with running pods (active = 3) and no condition at all. -/
def quietJob : Job :=
  { namespace_ := str "default", name := str "job-1",
    status := { conditions := [], active := 3, succeeded := 0, failed := 0 } }

/-- A container status in the Waiting state. -/
def waitingC : ContainerStatus :=
  { Name := str "c",
    State := { Waiting := some ⟨str "ContainerCreating", str ""⟩,
               Running := none, Terminated := none } }

/-- A container status in the Running state. -/
def runningC : ContainerStatus :=
  { Name := str "c",
    State := { Waiting := none, Running := some ⟨⟩, Terminated := none } }

/-- A container status in the Terminated state. -/
def terminatedC : ContainerStatus :=
  { Name := str "c",
    State := { Waiting := none, Running := none,
               Terminated := some ⟨0, str "Completed", str ""⟩ } }

/-- First source log line of the C8 failing input (trailing blank then
newline). -/
def c8Line1 : Str := str "2023-11-05T05:00:13.791930301Z hello world \n"

/-- Second source log line of the C8 failing input. -/
def c8Line2 : Str := str "2023-11-05T05:00:13.792101232Z second line\n"

/-- A pod template spec exercising every modelled field of the job spec. -/
def exampleJobSpec : JobSpec :=
  { BackoffLimit := some 1,
    Template :=
      { Labels := [(str "my/label", str "foo")],
        Spec :=
          { Containers := [{ Name := str "example-container", Image := str "busybox",
                             Command := [str "sh"],
                             Env := [{ Name := str "A", Value := str "1", ValueFrom := none }] }],
            InitContainers := [],
            RestartPolicy := str "Never" } } }

/-! ## Shared lemmas -/

/-- A successful 2-way split reassembles to the input around one space. -/
theorem splitN2_append (s a b : Str) (h : splitN2 s = (a, some b)) :
    a ++ ' ' :: b = s := by
  induction s generalizing a with
  | nil => simp [splitN2] at h
  | cons c rest ih =>
    by_cases hc : c = ' '
    · subst hc
      simp [splitN2] at h
      simp [h.1, h.2]
    · simp [splitN2, hc] at h
      obtain ⟨rfl, h2⟩ := h
      have hsp : splitN2 rest = ((splitN2 rest).1, some b) := by rw [← h2]
      have := ih _ hsp
      simpa using this

/-- A parse failure returns the whole trimmed line with an empty timestamp
and no parsed time. -/
theorem parseLine_fail (line : Str) (h : (parseLine line).2.1 = none) :
    parseLine line = ([], none, trimRight line) := by
  unfold parseLine at h ⊢
  rcases hsp : splitN2 (trimRight line) with ⟨a, b⟩
  cases b with
  | none => simp [hsp]
  | some msg =>
    simp only [hsp]
    cases hp : rfc3339Parse a with
    | none => rfl
    | some t => simp [hsp, hp] at h

/-- C9: `parseLine` is a partition of the trimmed input: either the raw
timestamp is empty and the message is the whole trimmed line, or the raw
timestamp parses as RFC3339 and `rawTimestamp ++ " " ++ message`
reconstructs the trimmed line exactly. -/
theorem parseLine_partition (line : Str) :
    ((parseLine line).1 = [] ∧ (parseLine line).2.2 = trimRight line) ∨
    ((rfc3339Parse (parseLine line).1).isSome ∧
     (parseLine line).1 ++ ' ' :: (parseLine line).2.2 = trimRight line) := by
  unfold parseLine
  rcases hsp : splitN2 (trimRight line) with ⟨a, b⟩
  cases b with
  | none => left; simp [hsp]
  | some msg =>
    cases hp : rfc3339Parse a with
    | none => left; simp [hsp, hp]
    | some t =>
      right
      refine ⟨by simp [hsp, hp], ?_⟩
      have := splitN2_append _ _ _ hsp
      simpa [hsp, hp] using this

/-- C5: the `Tail` loop stops exactly at the first outcome that is clean
EOF (no retry), pod-not-found, or cancellation; every other stream/read
error costs one fixed 100 ms sleep and a reopen, with no retry ceiling
(a prefix of retryable errors of any length leaves it still running). -/
theorem tail_termination (outs : List ResumeOutcome) :
    (tailLoop outs).2 = ((outs.dropWhile isRetryable).head?.bind stopCauseOf) ∧
    (tailLoop outs).1 = (outs.takeWhile isRetryable).length ∧
    (∀ msg, tailStep (.otherError msg) = .sleepRetry 100) ∧
    ((tailLoop outs).2 = none ↔ ∀ o ∈ outs, isRetryable o) := by
  refine ⟨?_, ?_, fun _ => rfl, ?_⟩
  · induction outs with
    | nil => rfl
    | cons o rest ih =>
      cases o <;> simp [tailLoop, tailStep, isRetryable, stopCauseOf, ih]
  · induction outs with
    | nil => rfl
    | cons o rest ih =>
      cases o <;> simp [tailLoop, tailStep, isRetryable, ih]
  · induction outs with
    | nil => simp [tailLoop]
    | cons o rest ih =>
      cases o <;> simp [tailLoop, tailStep, isRetryable, ih]

/-- C3 counterexample: with the cursor holding a previously parsed
timestamp, processing a line whose prefix is not a timestamp resets the
cursor to nil — it does not keep its previous value — while the record
still carries the whole trimmed line as the message with an empty raw
timestamp. -/
theorem tail_cursor_reset_counterexample :
    (resumeLineStep ⟨some c3Time⟩ (str "default") (str "pod-1") (str "main")
        (str "no timestamp here\n")).1.lastLogTime = none ∧
    (resumeLineStep ⟨some c3Time⟩ (str "default") (str "pod-1") (str "main")
        (str "no timestamp here\n")).1 ≠ (⟨some c3Time⟩ : Tailer) ∧
    (resumeLineStep ⟨some c3Time⟩ (str "default") (str "pod-1") (str "main")
        (str "no timestamp here\n")).2 =
      some { RawTimestamp := [], Namespace := str "default", PodName := str "pod-1",
             ContainerName := str "main", Message := str "no timestamp here" } := by
  decide

/-- C3 (amended): for every non-empty log line whose timestamp prefix fails
to parse, the tailer forwards the entire trimmed raw line as the message
with an empty raw timestamp, and the tail cursor is reset to the unset
value (nil), discarding whatever value it held before that line. -/
theorem tail_unparseable_fallback (t : Tailer) (ns pod ctr line : Str)
    (hne : line ≠ []) (hfail : (parseLine line).2.1 = none) :
    (resumeLineStep t ns pod ctr line).2 =
      some { RawTimestamp := [], Namespace := ns, PodName := pod,
             ContainerName := ctr, Message := trimRight line } ∧
    (resumeLineStep t ns pod ctr line).1.lastLogTime = none := by
  have h := parseLine_fail line hfail
  unfold resumeLineStep
  simp [hne, h]

/-- C3 witness: the amended statement at a concrete cursor and line. -/
theorem tail_unparseable_fallback_witness :
    (str "oops not a timestamp\n" ≠ ([] : Str)) ∧
    ((parseLine (str "oops not a timestamp\n")).2.1 = none) ∧
    ((resumeLineStep ⟨some c3Time⟩ (str "ns") (str "p") (str "c")
        (str "oops not a timestamp\n")).2 =
      some { RawTimestamp := [], Namespace := str "ns", PodName := str "p",
             ContainerName := str "c", Message := trimRight (str "oops not a timestamp\n") } ∧
     (resumeLineStep ⟨some c3Time⟩ (str "ns") (str "p") (str "c")
        (str "oops not a timestamp\n")).1.lastLogTime = none) :=
  ⟨by decide, by decide,
   tail_unparseable_fallback ⟨some c3Time⟩ (str "ns") (str "p") (str "c")
     (str "oops not a timestamp\n") (by decide) (by decide)⟩

/-- C8: evaluation of the default log sink at the failing input.  Each
record is printed in the `|timestamp|namespace|pod|container| message` form
with the trailing whitespace of the message stripped and the RFC3339 prefix
echoed verbatim, but the format string carries no newline and the message
no longer ends in one, so the two consecutive records are written with no
line terminator between or after them: their concatenated output contains
no newline character at all, contradicting the documented one-line-per-
record output. -/
theorem defaultContainerLogger_missing_line_terminator :
    (resumeLineStep ⟨none⟩ (str "default") (str "simple-rh2dx-24hqx") (str "example")
        c8Line1).2 =
      some { RawTimestamp := str "2023-11-05T05:00:13.791930301Z",
             Namespace := str "default", PodName := str "simple-rh2dx-24hqx",
             ContainerName := str "example", Message := str "hello world" } ∧
    (resumeLineStep ⟨none⟩ (str "default") (str "simple-rh2dx-24hqx") (str "example")
        c8Line2).2 =
      some { RawTimestamp := str "2023-11-05T05:00:13.792101232Z",
             Namespace := str "default", PodName := str "simple-rh2dx-24hqx",
             ContainerName := str "example", Message := str "second line" } ∧
    defaultContainerLoggerHandle
        { RawTimestamp := str "2023-11-05T05:00:13.791930301Z",
          Namespace := str "default", PodName := str "simple-rh2dx-24hqx",
          ContainerName := str "example", Message := str "hello world" } =
      str "|2023-11-05T05:00:13.791930301Z|default|simple-rh2dx-24hqx|example| hello world" ∧
    '\n' ∉
      (defaultContainerLoggerHandle
        { RawTimestamp := str "2023-11-05T05:00:13.791930301Z",
          Namespace := str "default", PodName := str "simple-rh2dx-24hqx",
          ContainerName := str "example", Message := str "hello world" } ++
       defaultContainerLoggerHandle
        { RawTimestamp := str "2023-11-05T05:00:13.792101232Z",
          Namespace := str "default", PodName := str "simple-rh2dx-24hqx",
          ContainerName := str "example", Message := str "second line" }) := by
  decide

/-- C1 counterexample: two Updated deliveries of the same snapshot carrying
an already-seen terminal condition produce two sends on the outcome
channel, not one — the handler keeps no Terminal state. -/
theorem job_terminal_duplicate_counterexample :
    countSends (jobOnUpdates [terminalJob, terminalJob]) = 2 ∧
    countSends (jobOnUpdates [terminalJob, terminalJob]) ≠ 1 := by
  decide

/-- Emissions of the handler distribute over a sequence of deliveries. -/
theorem jobOnUpdates_cons (u : Job) (us : List Job) :
    jobOnUpdates (u :: us) = jobOnUpdate u ++ jobOnUpdates us := by
  simp [jobOnUpdates]

/-- Send counting distributes over concatenation. -/
theorem countSends_append (a b : List JobEmission) :
    countSends (a ++ b) = countSends a + countSends b := by
  simp [countSends, List.filter_append]

/-- Evaluation of the handler once the true condition is known. -/
theorem jobOnUpdate_some (j : Job) (c : JobCondition)
    (hfind : findCondition j = some c) :
    jobOnUpdate j =
      if c.type = JobComplete then
        [.logJobCompleted j.namespace_ j.name c.type c.reason c.message,
         .sendFinished c.type]
      else if c.type = JobFailed then
        [.logJobFailed j.namespace_ j.name c.reason c.message,
         .sendFinished c.type]
      else
        [.logJobConditionChanged j.namespace_ j.name c.type c.reason c.message] := by
  unfold jobOnUpdate
  rw [hfind]

/-- One terminal Updated delivery produces exactly one send. -/
theorem countSends_jobOnUpdate_terminal (j : Job) (c : JobCondition)
    (hfind : findCondition j = some c)
    (hterm : c.type = JobComplete ∨ c.type = JobFailed) :
    countSends (jobOnUpdate j) = 1 := by
  rw [jobOnUpdate_some j c hfind]
  rcases hterm with h | h
  · rw [if_pos h]
    simp [countSends, isSendFinished]
  · rw [if_neg (show ¬ c.type = JobComplete by rw [h]; decide), if_pos h]
    simp [countSends, isSendFinished]

/-- C1 (amended): feeding the Workload Tracker N Updated snapshots all
carrying the same already-seen terminal condition yields exactly N emitted
outcomes — one per delivery.  The handler is stateless and performs no
deduplication; single consumption of the outcome is left to the
orchestrator's one-shot select. -/
theorem job_terminal_once_per_delivery (j : Job) (c : JobCondition) (n : Nat)
    (hfind : findCondition j = some c)
    (hterm : c.type = JobComplete ∨ c.type = JobFailed) :
    countSends (jobOnUpdates (List.replicate n j)) = n := by
  induction n with
  | zero => simp [jobOnUpdates, countSends]
  | succ n ih =>
    rw [List.replicate_succ, jobOnUpdates_cons, countSends_append, ih,
      countSends_jobOnUpdate_terminal j c hfind hterm]
    omega

/-- C1 witness: the amended statement at a concrete terminal snapshot and
N = 3. -/
theorem job_terminal_once_per_delivery_witness :
    (findCondition terminalJob =
      some { type := JobComplete, status := ConditionTrue,
             reason := str "", message := str "" }) ∧
    countSends (jobOnUpdates (List.replicate 3 terminalJob)) = 3 :=
  ⟨by decide,
   job_terminal_once_per_delivery terminalJob
     { type := JobComplete, status := ConditionTrue, reason := str "", message := str "" }
     3 (by decide) (Or.inl rfl)⟩

/-- C7 counterexample: an Updated snapshot whose job reports three active
pods but no condition with status `True` produces no emission at all — in
particular no structured log line reporting the pod-count counters, which
the claim requires on every update. -/
theorem job_no_podcount_log_counterexample :
    quietJob.status.active = 3 ∧
    jobOnUpdate quietJob = [] ∧
    countJobLogs (jobOnUpdate quietJob) = 0 := by
  decide

/-- C7 (amended): on an Updated snapshot the Workload Tracker emits exactly
one structured log line when some condition has status `True` (terminal or
merely changed) and none otherwise; the pod-count counters
(active/succeeded/failed) never influence its output and are never
logged — replacing them in the snapshot leaves the emissions unchanged. -/
theorem job_logging_rule (j : Job) (a s f : Int) :
    countJobLogs (jobOnUpdate j) = (if (findCondition j).isSome then 1 else 0) ∧
    jobOnUpdate
        { j with status := { j.status with active := a, succeeded := s, failed := f } } =
      jobOnUpdate j := by
  constructor
  · cases hfind : findCondition j with
    | none =>
      unfold jobOnUpdate
      rw [hfind]
      simp [countJobLogs]
    | some c =>
      rw [jobOnUpdate_some j c hfind]
      by_cases h1 : c.type = JobComplete
      · rw [if_pos h1]
        simp [countJobLogs, isJobLog]
      · rw [if_neg h1]
        by_cases h2 : c.type = JobFailed
        · rw [if_pos h2]
          simp [countJobLogs, isJobLog]
        · rw [if_neg h2]
          simp [countJobLogs, isJobLog]
  · unfold jobOnUpdate findCondition
    rfl

/-- Every send on the outcome channel carries `Complete` or `Failed`. -/
theorem sendFinished_terminal (j : Job) (t : Str)
    (h : JobEmission.sendFinished t ∈ jobOnUpdate j) :
    t = JobComplete ∨ t = JobFailed := by
  unfold jobOnUpdate at h
  split at h
  · simp at h
  · rename_i c heq
    split at h
    · rename_i hc
      simp at h
      exact Or.inl (h.trans hc)
    · split at h
      · rename_i hc
        simp at h
        exact Or.inr (h.trans hc)
      · simp at h

/-- C4: given a condition type actually emitted by the Workload Tracker,
the blocking call returns `nil` exactly when it is the succeeded type and a
`JobFailedError` carrying the job's namespace and name exactly when it is
the failed type; on cancellation it returns the context's error, which is
neither of these. -/
theorem waitForJob_contract (j : Job) (jobNamespace jobName t : Str)
    (h : JobEmission.sendFinished t ∈ jobOnUpdate j) :
    (waitForJobSelect jobNamespace jobName (.jobFinished t) = .ok ↔ t = JobComplete) ∧
    (waitForJobSelect jobNamespace jobName (.jobFinished t) =
        .jobFailedError jobNamespace jobName ↔ t = JobFailed) ∧
    (∀ e, waitForJobSelect jobNamespace jobName (.ctxDone e) = .otherError e ∧
      waitForJobSelect jobNamespace jobName (.ctxDone e) ≠ .ok ∧
      ∀ a b, waitForJobSelect jobNamespace jobName (.ctxDone e) ≠ .jobFailedError a b) := by
  have hCF : JobComplete ≠ JobFailed := by decide
  rcases sendFinished_terminal j t h with rfl | rfl
  · exact ⟨by simp [waitForJobSelect, hCF], by simp [waitForJobSelect, hCF],
      by simp [waitForJobSelect]⟩
  · exact ⟨by simp [waitForJobSelect, hCF.symm], by simp [waitForJobSelect],
      by simp [waitForJobSelect]⟩

/-- C4 witness: the contract at a concrete completed job. -/
theorem waitForJob_contract_witness :
    (JobEmission.sendFinished JobComplete ∈ jobOnUpdate terminalJob) ∧
    ((waitForJobSelect (str "default") (str "job-1") (.jobFinished JobComplete) = .ok ↔
        JobComplete = JobComplete) ∧
     (waitForJobSelect (str "default") (str "job-1") (.jobFinished JobComplete) =
        .jobFailedError (str "default") (str "job-1") ↔ JobComplete = JobFailed) ∧
     (∀ e, waitForJobSelect (str "default") (str "job-1") (.ctxDone e) = .otherError e ∧
       waitForJobSelect (str "default") (str "job-1") (.ctxDone e) ≠ .ok ∧
       ∀ a b,
         waitForJobSelect (str "default") (str "job-1") (.ctxDone e) ≠ .jobFailedError a b)) :=
  ⟨by decide,
   waitForJob_contract terminalJob (str "default") (str "job-1") JobComplete (by decide)⟩

/-- A name present in the list is mapped to a status carrying that name. -/
theorem mapContainerStatusByName_name (l : List ContainerStatus) (name : Str)
    (h : name ∈ l.map ContainerStatus.Name) :
    (mapContainerStatusByName l name).Name = name := by
  unfold mapContainerStatusByName
  cases hf : l.reverse.find? (fun containerStatus => containerStatus.Name = name) with
  | some cs =>
    have := List.find?_some hf
    simpa using this
  | none =>
    exfalso
    obtain ⟨cs, hcs, hname⟩ := List.mem_map.mp h
    have hmem : cs ∈ l.reverse := List.mem_reverse.mpr hcs
    have := List.find?_eq_none.mp hf cs hmem
    simp [hname] at this

/-- Membership characterization of the started events: the event for a
container is emitted exactly when the container occurs in the new status
list and the old/new states (absent defaulting to Waiting) satisfy the
started rule. -/
theorem mem_notifyContainerStarted (ns pod : Str) (oldS newS : List ContainerStatus)
    (name : Str) :
    ContainerStartedEvent.mk ns pod name ∈ notifyContainerStarted ns pod oldS newS ↔
    (name ∈ newS.map ContainerStatus.Name ∧
     ((getContainerState (mapContainerStatusByName oldS name) = str "Waiting" ∧
       getContainerState (mapContainerStatusByName newS name) ≠ str "Waiting") ∨
      (getContainerState (mapContainerStatusByName oldS name) = str "Terminated" ∧
       getContainerState (mapContainerStatusByName newS name) = str "Running"))) := by
  unfold notifyContainerStarted computeContainerStateChanges
  simp only [List.filterMap_filterMap, List.mem_filterMap, List.mem_dedup,
    Option.bind_eq_some, Option.ite_none_right_eq_some, Option.some.injEq,
    ContainerStartedEvent.mk.injEq]
  constructor
  · rintro ⟨nm, hnm, chg, ⟨hdiff, hchg⟩, hrule, _, _, hevname⟩
    subst hchg
    have hname := mapContainerStatusByName_name newS nm hnm
    rw [hname] at hevname
    subst hevname
    exact ⟨hnm, hrule⟩
  · rintro ⟨hnm, hrule⟩
    have hname := mapContainerStatusByName_name newS name hnm
    refine ⟨name, hnm,
      ⟨{ oldStatus := mapContainerStatusByName oldS name,
         newStatus := mapContainerStatusByName newS name }, ⟨?_, rfl⟩, hrule, trivial, trivial,
       hname⟩⟩
    rcases hrule with ⟨h1, h2⟩ | ⟨h1, h2⟩
    · rw [h1]
      exact fun hEq => h2 hEq.symm
    · rw [h1, h2]
      decide

/-- C2: for every Updated pod snapshot, a started event for a container
fires iff the container occurs in the new snapshot and its (defaulted)
states satisfy `oldState == Waiting && newState != Waiting` or
`oldState == Terminated && newState == Running` — and, for one container
driven through Waiting→Running→Terminated→Running, exactly one event fires
at each Running transition and none at the Terminated transition. -/
theorem containerStarted_exhaustive_rule :
    (∀ (namespace_ podName : Str) (oldStatuses newStatuses : List ContainerStatus)
        (name : Str),
      ContainerStartedEvent.mk namespace_ podName name ∈
          notifyContainerStarted namespace_ podName oldStatuses newStatuses ↔
        (name ∈ newStatuses.map ContainerStatus.Name ∧
         ((getContainerState (mapContainerStatusByName oldStatuses name) = str "Waiting" ∧
           getContainerState (mapContainerStatusByName newStatuses name) ≠ str "Waiting") ∨
          (getContainerState (mapContainerStatusByName oldStatuses name) = str "Terminated" ∧
           getContainerState (mapContainerStatusByName newStatuses name) = str "Running")))) ∧
    (notifyContainerStarted (str "default") (str "pod-1") [waitingC] [runningC] =
       [{ Namespace := str "default", PodName := str "pod-1", ContainerName := str "c" }] ∧
     notifyContainerStarted (str "default") (str "pod-1") [runningC] [terminatedC] = [] ∧
     notifyContainerStarted (str "default") (str "pod-1") [terminatedC] [runningC] =
       [{ Namespace := str "default", PodName := str "pod-1", ContainerName := str "c" }]) :=
  ⟨mem_notifyContainerStarted, by decide⟩

/-- C6: a sub-unit absent from the old snapshot, or one whose state struct
has no member set, is treated as Waiting — never unset — and therefore a
sub-unit first appearing directly in a non-Waiting state counts as a
Waiting→non-Waiting change and raises a started event. -/
theorem absent_subunit_defaults_to_waiting :
    (∀ containerStatus : ContainerStatus,
        containerStatus.State = { Waiting := none, Running := none, Terminated := none } →
        getContainerState containerStatus = str "Waiting") ∧
    (∀ (oldStatuses : List ContainerStatus) (name : Str),
        name ∉ oldStatuses.map ContainerStatus.Name →
        getContainerState (mapContainerStatusByName oldStatuses name) = str "Waiting") ∧
    (∀ (namespace_ podName : Str) (oldStatuses newStatuses : List ContainerStatus)
        (name : Str),
        name ∉ oldStatuses.map ContainerStatus.Name →
        name ∈ newStatuses.map ContainerStatus.Name →
        getContainerState (mapContainerStatusByName newStatuses name) ≠ str "Waiting" →
        ContainerStartedEvent.mk namespace_ podName name ∈
          notifyContainerStarted namespace_ podName oldStatuses newStatuses) := by
  have habsent : ∀ (oldStatuses : List ContainerStatus) (name : Str),
      name ∉ oldStatuses.map ContainerStatus.Name →
      getContainerState (mapContainerStatusByName oldStatuses name) = str "Waiting" := by
    intro oldS name hnot
    unfold mapContainerStatusByName
    cases hf : oldS.reverse.find? (fun containerStatus => containerStatus.Name = name) with
    | none => decide
    | some cs =>
      exfalso
      have hp := List.find?_some hf
      have hmem : cs ∈ oldS := List.mem_reverse.mp (List.mem_of_find?_eq_some hf)
      exact hnot (List.mem_map.mpr ⟨cs, hmem, by simpa using hp⟩)
  refine ⟨?_, habsent, ?_⟩
  · intro cs h
    simp [getContainerState, h]
  · intro ns pod oldS newS name hnot hmem hne
    exact (mem_notifyContainerStarted ns pod oldS newS name).mpr
      ⟨hmem, Or.inl ⟨habsent oldS name hnot, hne⟩⟩

/-- C6 witness: the absent-default and the first-appearance event at
concrete inputs. -/
theorem absent_subunit_defaults_to_waiting_witness :
    ((str "c") ∉ ([] : List ContainerStatus).map ContainerStatus.Name) ∧
    getContainerState (mapContainerStatusByName [] (str "c")) = str "Waiting" ∧
    ContainerStartedEvent.mk (str "default") (str "pod-1") (str "c") ∈
      notifyContainerStarted (str "default") (str "pod-1") [] [runningC] :=
  ⟨by decide,
   absent_subunit_defaults_to_waiting.2.1 [] (str "c") (by decide),
   absent_subunit_defaults_to_waiting.2.2 (str "default") (str "pod-1") [] [runningC]
     (str "c") (by decide) (by decide) (by decide)⟩

/-- C10: `appendEnv` with an empty env map is the identity; with a
non-empty map every container of the pod template gets exactly the injected
variables appended to its env list while every other field of the job spec
and of each container is unchanged; `appendSecretEnv` with an empty
secretEnv list is also the identity. -/
theorem appendEnv_frame :
    (∀ jobSpec : JobSpec, appendEnv jobSpec [] = jobSpec) ∧
    (∀ (jobSpec : JobSpec) (env : List (Str × Str)), env ≠ [] →
      ((appendEnv jobSpec env).BackoffLimit = jobSpec.BackoffLimit ∧
       (appendEnv jobSpec env).Template.Labels = jobSpec.Template.Labels ∧
       (appendEnv jobSpec env).Template.Spec.InitContainers =
         jobSpec.Template.Spec.InitContainers ∧
       (appendEnv jobSpec env).Template.Spec.RestartPolicy =
         jobSpec.Template.Spec.RestartPolicy ∧
       (appendEnv jobSpec env).Template.Spec.Containers =
         jobSpec.Template.Spec.Containers.map (fun container =>
           { container with
             Env := container.Env ++ env.map (fun nv =>
               { Name := nv.1, Value := nv.2, ValueFrom := none }) }))) ∧
    (∀ (jobSpec : JobSpec) (secret : Str), appendSecretEnv jobSpec secret [] = jobSpec) := by
  refine ⟨?_, ?_, ?_⟩
  · intro jobSpec
    simp [appendEnv]
  · intro jobSpec env henv
    have hlen : ¬ env.length = 0 := fun h => henv (List.length_eq_zero.mp h)
    unfold appendEnv
    rw [if_neg hlen]
    exact ⟨rfl, rfl, rfl, rfl, rfl⟩
  · intro jobSpec secret
    simp [appendSecretEnv]

/-- C10 witness: the frame at a concrete job spec and one injected
variable. -/
theorem appendEnv_frame_witness :
    ([(str "FOO", str "bar")] ≠ ([] : List (Str × Str))) ∧
    ((appendEnv exampleJobSpec [(str "FOO", str "bar")]).BackoffLimit =
       exampleJobSpec.BackoffLimit ∧
     (appendEnv exampleJobSpec [(str "FOO", str "bar")]).Template.Labels =
       exampleJobSpec.Template.Labels ∧
     (appendEnv exampleJobSpec [(str "FOO", str "bar")]).Template.Spec.InitContainers =
       exampleJobSpec.Template.Spec.InitContainers ∧
     (appendEnv exampleJobSpec [(str "FOO", str "bar")]).Template.Spec.RestartPolicy =
       exampleJobSpec.Template.Spec.RestartPolicy ∧
     (appendEnv exampleJobSpec [(str "FOO", str "bar")]).Template.Spec.Containers =
       exampleJobSpec.Template.Spec.Containers.map (fun container =>
         { container with
           Env := container.Env ++ [(str "FOO", str "bar")].map (fun nv =>
             { Name := nv.1, Value := nv.2, ValueFrom := none }) })) :=
  ⟨by decide, appendEnv_frame.2.1 exampleJobSpec [(str "FOO", str "bar")] (by decide)⟩
